import Mathlib

/-!
Verification of the zniff-rs frame parsers against their specification.

The definitions below are shallow embeddings of the Rust sources:
machine integers are modelled as `Nat` (with explicit masking where the
code casts or wraps), byte buffers as `List Nat`, and fallible or
possibly crashing code as `Option` / `Except` (where `none` models a
Rust runtime failure such as an arithmetic underflow followed by an
out-of-bounds index).
-/

namespace ZniffRs

/-- Native Z-Wave region enumeration from src/types.rs.
EU=0, US=1, ANZ=2, HK=3, IN=5, IL=6, RU=7, CN=8, USLR=9, EULR=11,
JP=32, KR=33. -/
inductive Region where
  | EU | US | ANZ | HK | IN | IL | RU | CN | USLR | EULR | JP | KR
  deriving DecidableEq, Repr

/-- TryFrom of a u8 for Region, from src/types.rs. -/
def Region.tryFrom (value : Nat) : Option Region :=
  if value = 0x00 then some .EU
  else if value = 0x01 then some .US
  else if value = 0x02 then some .ANZ
  else if value = 0x03 then some .HK
  else if value = 0x05 then some .IN
  else if value = 0x06 then some .IL
  else if value = 0x07 then some .RU
  else if value = 0x08 then some .CN
  else if value = 0x09 then some .USLR
  else if value = 0x0B then some .EULR
  else if value = 0x20 then some .JP
  else if value = 0x21 then some .KR
  else none

/-- PTI region code of a native region: the From Region for PtiRegion
conversion in src/types.rs, with the PtiRegion discriminants
(EU=1, US=2, ANZ=3, HK=4, IN=5, IL=9, RU=8, CN=11, USLR=12, EULR=15,
JP=7, KR=10). -/
def Region.toPti : Region → Nat
  | .EU => 1
  | .US => 2
  | .ANZ => 3
  | .HK => 4
  | .IN => 5
  | .IL => 9
  | .RU => 8
  | .CN => 11
  | .USLR => 12
  | .EULR => 15
  | .JP => 7
  | .KR => 10

/-- Map a PTI region code back to a native region, from
src/pti_parser.rs (pti_region_to_region). -/
def pti_region_to_region (pti_region : Nat) : Option Region :=
  if pti_region = 0x01 then some .EU
  else if pti_region = 0x02 then some .US
  else if pti_region = 0x03 then some .ANZ
  else if pti_region = 0x04 then some .HK
  else if pti_region = 0x05 then some .IN
  else if pti_region = 0x09 then some .IL
  else if pti_region = 0x08 then some .RU
  else if pti_region = 0x0B then some .CN
  else if pti_region = 0x0C then some .USLR
  else if pti_region = 0x0F then some .EULR
  else if pti_region = 0x07 then some .JP
  else if pti_region = 0x0A then some .KR
  else none

/-- A reconstructed Z-Wave MAC frame (struct Frame in src/types.rs).
Bytes and small integers are modelled as Nat. -/
structure Frame where
  region : Region
  channel : Nat
  speed : Nat
  timestamp : Nat
  rssi : Nat
  payload : List Nat
  deriving DecidableEq, Repr

/-- Default Frame value (derive Default in src/types.rs). -/
def Frame.default : Frame :=
  { region := .EU, channel := 0, speed := 0, timestamp := 0, rssi := 0, payload := [] }

/-! Speed classification tables from get_speed in src/pti_parser.rs.
Each key is channel shifted left by 8, or-ed with the PTI region code. -/

/-- Long Range keys (lr_speeds). -/
def lr_speeds : List Nat :=
  [0x0303, 0x0303, 0x0003, 0x0103, 0x0303, 0x0303, 0x0003, 0x0103]

/-- Keys classified as 9600 baud (baud_9600). -/
def baud_9600 : List Nat :=
  [0x0201, 0x0202, 0x0203, 0x0204, 0x0205, 0x0206,
   0x0208, 0x0209, 0x020B, 0x020C, 0x020D, 0x020F, 0x0210]

/-- Keys classified as 40K baud (baud_40k). -/
def baud_40k : List Nat :=
  [0x0101, 0x0102, 0x0103, 0x0104, 0x0105, 0x0106,
   0x0108, 0x0109, 0x010B, 0x010C, 0x010D, 0x010F, 0x0110]

/-- Keys classified as 100K baud (baud_100k). -/
def baud_100k : List Nat :=
  [0x0001, 0x0002, 0x0003, 0x0004, 0x0005, 0x0006,
   0x0007, 0x0107, 0x0207, 0x0008, 0x0009, 0x000A,
   0x010A, 0x020A, 0x000B, 0x000C, 0x000D, 0x000F, 0x0010]

/-- Determine the speed code from channel and PTI region, from
get_speed in src/pti_parser.rs. -/
def get_speed (channel : Nat) (region : Nat) : Nat :=
  let key := (channel <<< 8) ||| region
  if key ∈ baud_9600 then 0
  else if key ∈ baud_40k then 1
  else if key ∈ baud_100k then 2
  else if key ∈ lr_speeds then 3
  else 0

/-- Indexing a byte buffer: data at index i, as in a Rust slice access
whose index is known to be in bounds. -/
def byteAt (data : List Nat) (i : Nat) : Nat := data.getD i 0

/-- Result of parsing a PTI packet (enum PtiParseResult in
src/pti_parser.rs). -/
inductive PtiParseResult where
  | ValidFrame (frame : Frame)
  | InvalidFrame
  | IncompleteFrame
  deriving DecidableEq, Repr

/-- RSSI post-processing in parse_pti_frame: reinterpret the byte as a
signed i8, subtract 0x32 (saturating) when the appended-info version is
at least 1, then take the unsigned absolute value. -/
def rssiTransform (b : Nat) (appended_info_cfg : Nat) : Nat :=
  let rssi_raw : Int := if b < 128 then (b : Int) else (b : Int) - 256
  let appended_info_version := appended_info_cfg &&& 0b00000111
  let rssi_value : Int :=
    if appended_info_version ≥ 1 then max (-128) (min 127 (rssi_raw - 0x32))
    else rssi_raw
  rssi_value.natAbs

/-- Parse a PTI frame (parse_pti_frame in src/pti_parser.rs). The outer
`none` models a Rust runtime failure: the expression computing the
HW_END position underflows (and the subsequent index is out of bounds)
when the encoded appended-info length exceeds the bytes available. -/
def parse_pti_frame (data : List Nat) : Option PtiParseResult :=
  if data.length < 6 then some .InvalidFrame
  else
    let hw_start := byteAt data 0
    if hw_start ≠ 0xF8 ∧ hw_start ≠ 0xFC then some .InvalidFrame
    else
      let appended_info_cfg := byteAt data (data.length - 1)
      let is_rx := (appended_info_cfg &&& 0b01000000) >>> 6
      let appended_info_length := ((appended_info_cfg &&& 0b00111000) >>> 3) + 3
      let status_0 := byteAt data (data.length - 2)
      let protocol_id := status_0 &&& 0x0F
      if protocol_id ≠ 0x06 then some .InvalidFrame
      else
        let radio_info := byteAt data (data.length - 3)
        let channel := radio_info &&& 0b00111111
        let radio_config := byteAt data (data.length - 4)
        let pti_region := radio_config &&& 0b00011111
        match pti_region_to_region pti_region with
        | none => some .InvalidFrame
        | some region =>
          let rssi :=
            if is_rx = 1 then rssiTransform (byteAt data (data.length - 5)) appended_info_cfg
            else 0
          if data.length - 1 < appended_info_length then none
          else
            let hw_end_pos := data.length - 1 - appended_info_length
            let hw_end := byteAt data hw_end_pos
            let expected_hw_end := if is_rx = 1 then 0xF9 else 0xFD
            if hw_end ≠ expected_hw_end then some .InvalidFrame
            else
              let ota_data := (data.drop 1).take (hw_end_pos - 1)
              if ota_data.length = 0 ∨ byteAt ota_data 0 = 0x55 then some .InvalidFrame
              else
                let speed := get_speed channel pti_region
                some (.ValidFrame
                  { region := region, channel := channel, speed := speed,
                    timestamp := 0, rssi := rssi, payload := ota_data })

/-- Parse a DCH frame containing PTI data (parse_dch_frame in
src/pti_parser.rs). The outer `none` propagates a runtime failure of
parse_pti_frame. -/
def parse_dch_frame (data : List Nat) : Option PtiParseResult :=
  if data.length < 6 then some .IncompleteFrame
  else if byteAt data 0 ≠ 0x5B then some .InvalidFrame
  else
    let length := byteAt data 1 + 256 * byteAt data 2
    if data.length < length + 2 then some .IncompleteFrame
    else
      let end_symbol_index := length + 1
      if byteAt data end_symbol_index ≠ 0x5D then some .InvalidFrame
      else
        let version := byteAt data 3 + 256 * byteAt data 4
        if version = 2 then
          if length ≤ 13 then some .InvalidFrame
          else parse_pti_frame ((data.drop 14).take (end_symbol_index - 14))
        else if version = 3 then
          if length ≤ 20 then some .InvalidFrame
          else parse_pti_frame ((data.drop 21).take (end_symbol_index - 21))
        else some .InvalidFrame

/-- One pass of the scan loop of PtiParser::parse in src/pti_parser.rs,
operating on the unconsumed suffix of the buffer. Returns the emitted
frames together with the leftover buffer, or `none` when a trial parse
crashes. The fuel argument only serves termination; the loop consumes
at least one byte per iteration, so fuel equal to the buffer length is
always enough. -/
def ptiScan : Nat → List Nat → Option (List Frame × List Nat)
  | 0, remaining => some ([], remaining)
  | fuel + 1, remaining =>
    if remaining.length < 6 then some ([], remaining)
    else if byteAt remaining 0 ≠ 0x5B then
      match ptiScan fuel (remaining.drop 1) with
      | none => none
      | some (frames, rest) => some (frames, rest)
    else
      let length := byteAt remaining 1 + 256 * byteAt remaining 2
      let frame_size := length + 2
      if remaining.length < frame_size then some ([], remaining)
      else
        match parse_dch_frame (remaining.take frame_size) with
        | none => none
        | some (.ValidFrame frame) =>
          match ptiScan fuel (remaining.drop frame_size) with
          | none => none
          | some (frames, rest) => some (frame :: frames, rest)
        | some .IncompleteFrame => some ([], remaining)
        | some .InvalidFrame =>
          match ptiScan fuel (remaining.drop 1) with
          | none => none
          | some (frames, rest) => some (frames, rest)

/-- PtiParser::parse in src/pti_parser.rs: append the new data to the
internal buffer, scan it for DCH frames, and return the frames plus the
new buffer contents. `none` models a crash of a trial parse. -/
def ptiParserParse (buffer data : List Nat) : Option (List Frame × List Nat) :=
  let full := buffer ++ data
  ptiScan full.length full

/-- Frame::to_pti_vector in src/types.rs: wrap a frame in a synthesized
DCH v2 envelope with a fixed header, HW_RX_START, the payload,
HW_RX_SUCCESS, the four byte trailer and the 0x51 end-of-appended-info
byte. The length byte is a u8 cast, hence the modulus. -/
def to_pti_vector (f : Frame) : List Nat :=
  [0x5B, (15 + f.payload.length + 7 - 2) % 256, 0x00, 0x02, 0x00,
   0x52, 0x6E, 0x7D, 0x50, 0x12, 0x00, 0x2A, 0x00, 0x87, 0xF8]
  ++ f.payload
  ++ [0xF9, f.rssi, f.region.toPti, f.channel, 0x06, 0x51, 0x5D]

/-! Zniffer serial frame state machine, from
crates/core/src/zniffer_parser.rs. -/

/-- Parser states (enum ParserState). -/
inductive ZParserState where
  | AwaitStartOfFrame
  | AwaitCommandID
  | AwaitLength
  | AwaitPayload
  | AwaitType
  | AwaitTimestamp
  | AwaitChannelAndSpeed
  | AwaitRegion
  | AwaitRssi
  | AwaitStartofDataOne
  | AwaitStartofDataTwo
  deriving DecidableEq, Repr

/-- Parse outcomes (enum ParserResult). -/
inductive ZParserResult where
  | ValidCommand (id : Nat) (payload : List Nat)
  | ValidFrame (frame : Frame)
  | IncompleteFrame
  | InvalidFrame
  deriving DecidableEq, Repr

/-- Mutable parser state (struct Parser). -/
structure ZParser where
  state : ZParserState
  command_id : Nat
  length : Nat
  payload_count : Nat
  frame_type : Nat
  timestamp_state : Bool
  rssi : Nat
  frame : Frame
  deriving DecidableEq, Repr

/-- Parser::new. -/
def ZParser.new : ZParser :=
  { state := .AwaitStartOfFrame, command_id := 0, length := 0,
    payload_count := 0, frame_type := 0, timestamp_state := false,
    rssi := 0, frame := Frame.default }

/-- Parser::parse, fed a single byte; returns the updated parser state
and the outcome. -/
def zparse (p : ZParser) (value : Nat) : ZParser × ZParserResult :=
  match p.state with
  | .AwaitStartOfFrame =>
    if value = 0x23 then ({ p with state := .AwaitCommandID }, .IncompleteFrame)
    else if value = 0x21 then ({ p with state := .AwaitType }, .IncompleteFrame)
    else (p, .IncompleteFrame)
  | .AwaitCommandID =>
    let p := { p with command_id := value }
    if value = 1 ∨ value = 2 ∨ value = 3 ∨ value = 19 ∨ value = 4 ∨ value = 5 ∨ value = 14 then
      ({ p with state := .AwaitLength }, .IncompleteFrame)
    else (ZParser.new, .InvalidFrame)
  | .AwaitType =>
    if value = 1 ∨ value = 2 ∨ value = 4 ∨ value = 5 then
      ({ p with frame_type := value, state := .AwaitTimestamp }, .IncompleteFrame)
    else (ZParser.new, .InvalidFrame)
  | .AwaitTimestamp =>
    if p.timestamp_state = false then
      ({ p with frame := { p.frame with timestamp := (value <<< 8) % 65536 },
                timestamp_state := true }, .IncompleteFrame)
    else
      ({ p with frame := { p.frame with timestamp := p.frame.timestamp ||| value },
                timestamp_state := false,
                state := .AwaitChannelAndSpeed }, .IncompleteFrame)
  | .AwaitChannelAndSpeed =>
    ({ p with frame := { p.frame with channel := value >>> 5, speed := value &&& 0x1F },
              state := .AwaitRegion }, .IncompleteFrame)
  | .AwaitRegion =>
    match Region.tryFrom value with
    | some region =>
      ({ p with frame := { p.frame with region := region },
                state := .AwaitRssi }, .IncompleteFrame)
    | none => (ZParser.new, .InvalidFrame)
  | .AwaitRssi =>
    ({ p with frame := { p.frame with rssi := value },
              state := .AwaitStartofDataOne }, .IncompleteFrame)
  | .AwaitStartofDataOne =>
    if value = 0x21 then ({ p with state := .AwaitStartofDataTwo }, .IncompleteFrame)
    else (ZParser.new, .InvalidFrame)
  | .AwaitStartofDataTwo =>
    if value = 0x03 then ({ p with state := .AwaitLength }, .IncompleteFrame)
    else (ZParser.new, .InvalidFrame)
  | .AwaitLength =>
    let p := { p with length := value, payload_count := value }
    if value = 0 then (ZParser.new, .ValidCommand p.command_id [])
    else ({ p with state := .AwaitPayload }, .IncompleteFrame)
  | .AwaitPayload =>
    let p := { p with frame := { p.frame with payload := p.frame.payload ++ [value] },
                      payload_count := p.payload_count - 1 }
    if p.payload_count < 1 then
      if p.frame_type = 1 ∨ p.frame_type = 2 ∨ p.frame_type = 4 ∨ p.frame_type = 5 then
        (ZParser.new, .ValidFrame p.frame)
      else
        (ZParser.new, .ValidCommand p.command_id p.frame.payload)
    else (p, .IncompleteFrame)

/-- Parser::parse_bytes: feed bytes in order, returning at the first
outcome that is not IncompleteFrame; the remaining bytes of the input
are not processed. -/
def zparseBytes (p : ZParser) : List Nat → ZParser × ZParserResult
  | [] => (p, .IncompleteFrame)
  | b :: rest =>
    match zparse p b with
    | (p', .IncompleteFrame) => zparseBytes p' rest
    | (p', r) => (p', r)

/-- Prepend an outcome to an outcome sequence unless it is
IncompleteFrame, which is not reported. -/
def outcomesCons (r : ZParserResult) (rs : List ZParserResult) : List ZParserResult :=
  match r with
  | .IncompleteFrame => rs
  | _ => r :: rs

/-- Feed every byte of a chunk through Parser::parse, collecting all
outcomes other than IncompleteFrame in order. -/
def zfeed (p : ZParser) : List Nat → ZParser × List ZParserResult
  | [] => (p, [])
  | b :: rest =>
    ((zfeed (zparse p b).1 rest).1,
     outcomesCons (zparse p b).2 (zfeed (zparse p b).1 rest).2)

/-- Feed a sequence of chunks through the parser, concatenating the
outcome sequences of the chunks. -/
def zfeedChunks (p : ZParser) : List (List Nat) → ZParser × List ZParserResult
  | [] => (p, [])
  | c :: cs =>
    ((zfeedChunks (zfeed p c).1 cs).1,
     (zfeed p c).2 ++ (zfeedChunks (zfeed p c).1 cs).2)

/-! Capture file (ZLF) reader, from crates/cli/src/zlf/reader.rs. -/

/-- Error cases of the ZLF reader (enum ZlfError); the Io case stands
for any propagated I O error such as a short read of the header. -/
inductive ZlfError where
  | InvalidZlfVersion (version : Nat)
  | InvalidStartPattern
  | InvalidPropertiesField (b : Nat)
  | InvalidApiTypeField (b : Nat)
  | Io
  | Eof
  | BadMarker (b : Nat)
  | ShortDataPayload
  deriving DecidableEq, Repr

/-- One shift of the CRC-16 state: shift left and, when the high bit
was set, xor with the polynomial 0x1021, all modulo 2^16. -/
def crcShiftStep (c : Nat) : Nat :=
  if c &&& 0x8000 ≠ 0 then ((c <<< 1) ^^^ 0x1021) &&& 0xFFFF
  else (c <<< 1) &&& 0xFFFF

/-- One update step of CRC-16/AUG-CCITT: xor the byte into the high
bits of the state, then eight shift rounds. -/
def crc16Round (crc b : Nat) : Nat :=
  crcShiftStep^[8] ((crc ^^^ ((b <<< 8) &&& 0xFFFF)) &&& 0xFFFF)

/-- CRC-16/AUG-CCITT of a byte sequence: polynomial 0x1021, initial
value 0x1D0F, no reflection, no final xor (the AUG_CCITT state used by
the crc16 crate in ZlfReader::new). -/
def crc16AugCcitt (data : List Nat) : Nat := data.foldl crc16Round 0x1D0F

/-- The ZLF format version constant (ZLF_VERSION = 104). -/
def ZLF_VERSION : Nat := 104

/-- ZlfReader::new from crates/cli/src/zlf/reader.rs, as a function of
the file contents: read a 2048 byte header, check its CRC-16/AUG-CCITT
over the first 2046 bytes against the little-endian value stored in the
last two header bytes, then check the 32-bit little-endian version. -/
def zlfReaderNew (file : List Nat) : Except ZlfError Unit :=
  if file.length < 2048 then .error .Io
  else
    let header := file.take 2048
    let file_checksum := byteAt header 2046 + 256 * byteAt header 2047
    if crc16AugCcitt (header.take 2046) ≠ file_checksum then .error .InvalidStartPattern
    else
      let version := byteAt header 0 + 256 * byteAt header 1 +
                     65536 * byteAt header 2 + 16777216 * byteAt header 3
      if version ≠ ZLF_VERSION then .error (.InvalidZlfVersion version)
      else .ok ()

/-! Theorems. -/

/-- Auxiliary: converting a native region to its PTI code and back is
the identity. Shared by several developments below. -/
theorem toPti_then_back (r : Region) : pti_region_to_region r.toPti = some r := by
  cases r <;> rfl

/-- C3: feeding the classic Zniffer data frame byte sequence to a fresh
parser produces a ValidFrame with region EU, channel 1, speed 0,
timestamp 0x6DCE, rssi 0x9D and the 18 trailing payload bytes. -/
theorem c3_classic_data_frame :
    (zparseBytes ZParser.new
      [0x21, 0x01, 0x6D, 0xCE, 0x20, 0x00, 0x9D, 0x21, 0x03, 0x12,
       0xE2, 0xEA, 0x36, 0xC3, 0x01, 0x81, 0x0D, 0x12, 0x20, 0x0B,
       0x10, 0x02, 0x41, 0x7F, 0x7F, 0x7F, 0x7F, 0xE5]).2 =
    .ValidFrame
      { region := .EU, channel := 1, speed := 0, timestamp := 0x6DCE,
        rssi := 0x9D,
        payload := [0xE2, 0xEA, 0x36, 0xC3, 0x01, 0x81, 0x0D, 0x12,
                    0x20, 0x0B, 0x10, 0x02, 0x41, 0x7F, 0x7F, 0x7F,
                    0x7F, 0xE5] } := by
  rfl

/-- C6: the code disagrees with the claim at a zero length byte of a
data frame. After SOF 0x21, type 0x01, timestamp, channel and speed,
region, rssi and start-of-data 0x21 0x03, a length byte 0 makes the
parser emit ValidCommand with id 0 and empty payload (the code assumes
a command without checking, as its TODO comment admits), not the
empty-payload ValidFrame that the specification defines. -/
theorem c6_zero_length_emits_command :
    (zparseBytes ZParser.new
      [0x21, 0x01, 0x00, 0x00, 0x20, 0x00, 0x9D, 0x21, 0x03, 0x00]).2 =
    .ValidCommand 0 [] := by
  rfl

/-- C4: the code disagrees with the claim on trailers whose encoded
appended-info length exceeds the available bytes. This DCH v2 envelope
carries a six byte PTI payload whose configuration byte 0x5E encodes an
appended-info length of six, so computing the HW_END position
underflows and the parse crashes (modelled by `none`) instead of
reporting InvalidFrame; the streaming parser crashes on the same
bytes. -/
theorem c4_trailer_underflow_crash :
    parse_dch_frame
      [0x5B, 0x13, 0x00, 0x02, 0x00, 0x00, 0x00, 0x00, 0x00, 0x00,
       0x00, 0x00, 0x00, 0x00, 0xF8, 0x00, 0x01, 0x01, 0x06, 0x5E,
       0x5D] = none ∧
    ptiParserParse []
      [0x5B, 0x13, 0x00, 0x02, 0x00, 0x00, 0x00, 0x00, 0x00, 0x00,
       0x00, 0x00, 0x00, 0x00, 0xF8, 0x00, 0x01, 0x01, 0x06, 0x5E,
       0x5D] = none := by
  exact ⟨rfl, rfl⟩

/-- C8: for every native region, converting to the PTI code and mapping
back through the PTI-to-native table yields the same region. -/
theorem c8_region_roundtrip (r : Region) :
    pti_region_to_region r.toPti = some r := by
  cases r <;> rfl

/-- C8 witness at a concrete region. -/
theorem c8_region_roundtrip_witness :
    pti_region_to_region Region.KR.toPti = some Region.KR :=
  c8_region_roundtrip Region.KR

/-- C7 counterexample: the key 0x0103 (channel 1, PTI region 3) is in
the Long-Range table, yet get_speed classifies it as 40 kbps because
the 40 kbps table is consulted first and also contains that key; so the
claim that every Long-Range key is mapped to 3 fails. -/
theorem c7_counterexample :
    0x0103 ∈ lr_speeds ∧ get_speed 1 3 = 1 ∧ get_speed 1 3 ≠ 3 := by
  refine ⟨by decide, by decide, by decide⟩

/-- C7 amended: get_speed resolves the key against the four tables in
the order 9.6 kbps, 40 kbps, 100 kbps, Long-Range, returning the
classification of the first table containing the key (so a key in
several tables gets the earliest classification), and returns 0 for a
key in no table. -/
theorem c7_speed_table (channel region : Nat) :
    ((channel <<< 8) ||| region ∈ baud_9600 → get_speed channel region = 0) ∧
    ((channel <<< 8) ||| region ∉ baud_9600 →
      (channel <<< 8) ||| region ∈ baud_40k → get_speed channel region = 1) ∧
    ((channel <<< 8) ||| region ∉ baud_9600 →
      (channel <<< 8) ||| region ∉ baud_40k →
      (channel <<< 8) ||| region ∈ baud_100k → get_speed channel region = 2) ∧
    ((channel <<< 8) ||| region ∉ baud_9600 →
      (channel <<< 8) ||| region ∉ baud_40k →
      (channel <<< 8) ||| region ∉ baud_100k →
      (channel <<< 8) ||| region ∈ lr_speeds → get_speed channel region = 3) ∧
    ((channel <<< 8) ||| region ∉ baud_9600 →
      (channel <<< 8) ||| region ∉ baud_40k →
      (channel <<< 8) ||| region ∉ baud_100k →
      (channel <<< 8) ||| region ∉ lr_speeds → get_speed channel region = 0) := by
  unfold get_speed
  simp only []
  split_ifs with h1 h2 h3 h4 <;>
    refine ⟨fun a => ?_, fun a b => ?_, fun a b c => ?_, fun a b c d => ?_,
            fun a b c d => ?_⟩ <;>
    first | rfl | (exfalso; tauto)

/-- C7 witness: concrete pairs exercising each classification and the
default. -/
theorem c7_speed_table_witness :
    get_speed 2 1 = 0 ∧ get_speed 1 1 = 1 ∧ get_speed 0 1 = 2 ∧
    get_speed 3 3 = 3 ∧ get_speed 5 5 = 0 :=
  ⟨(c7_speed_table 2 1).1 (by decide),
   (c7_speed_table 1 1).2.1 (by decide) (by decide),
   (c7_speed_table 0 1).2.2.1 (by decide) (by decide) (by decide),
   (c7_speed_table 3 3).2.2.2.1 (by decide) (by decide) (by decide) (by decide),
   (c7_speed_table 5 5).2.2.2.2 (by decide) (by decide) (by decide) (by decide)⟩

/-- Auxiliary: indexing inside a take. -/
theorem byteAt_take (l : List Nat) (n i : Nat) (h : i < n) :
    byteAt (l.take n) i = byteAt l i := by
  simp [byteAt, List.getElem?_take_of_lt h]

/-- Auxiliary: indexing the left part of an append. -/
theorem byteAt_append_left (l1 l2 : List Nat) (i : Nat) (h : i < l1.length) :
    byteAt (l1 ++ l2) i = byteAt l1 i :=
  List.getD_append l1 l2 0 i h

/-- Auxiliary: indexing the right part of an append. -/
theorem byteAt_append_right (l1 l2 : List Nat) (i : Nat) (h : l1.length ≤ i) :
    byteAt (l1 ++ l2) i = byteAt l2 (i - l1.length) :=
  List.getD_append_right l1 l2 0 i h

/-- C2: on any file holding a full 2048 byte preamble, opening succeeds
only if the little-endian 32-bit value of bytes 0 to 3 is 104 and the
little-endian 16-bit value at bytes 2046 and 2047 equals the
CRC-16/AUG-CCITT of bytes 0 to 2045; and whenever the stored value
differs from that CRC the open fails with the invalid-preamble error
(the ZlfError constructor named InvalidStartPattern in the code). -/
theorem c2_preamble (file : List Nat) (h : 2048 ≤ file.length) :
    (zlfReaderNew file = .ok () →
      byteAt file 0 + 256 * byteAt file 1 + 65536 * byteAt file 2 +
        16777216 * byteAt file 3 = 104 ∧
      crc16AugCcitt (file.take 2046) =
        byteAt file 2046 + 256 * byteAt file 2047) ∧
    (crc16AugCcitt (file.take 2046) ≠
        byteAt file 2046 + 256 * byteAt file 2047 →
      zlfReaderNew file = .error .InvalidStartPattern) := by
  unfold zlfReaderNew ZLF_VERSION
  simp only []
  have hnot : ¬ file.length < 2048 := by omega
  rw [if_neg hnot]
  have htt : (file.take 2048).take 2046 = file.take 2046 := by
    rw [List.take_take]
    norm_num
  have e0 : byteAt (file.take 2048) 0 = byteAt file 0 := byteAt_take _ _ _ (by omega)
  have e1 : byteAt (file.take 2048) 1 = byteAt file 1 := byteAt_take _ _ _ (by omega)
  have e2 : byteAt (file.take 2048) 2 = byteAt file 2 := byteAt_take _ _ _ (by omega)
  have e3 : byteAt (file.take 2048) 3 = byteAt file 3 := byteAt_take _ _ _ (by omega)
  have e46 : byteAt (file.take 2048) 2046 = byteAt file 2046 := byteAt_take _ _ _ (by omega)
  have e47 : byteAt (file.take 2048) 2047 = byteAt file 2047 := byteAt_take _ _ _ (by omega)
  rw [htt, e0, e1, e2, e3, e46, e47]
  constructor
  · intro hok
    split_ifs at hok with hc hv
    any_goals simp at hok
    exact ⟨by omega, by omega⟩
  · intro hne
    rw [if_pos hne]

/-- Auxiliary: one CRC shift stays within sixteen bits. -/
theorem crcShiftStep_le (c : Nat) : crcShiftStep c ≤ 0xFFFF := by
  unfold crcShiftStep
  split_ifs <;> exact Nat.and_le_right

/-- Auxiliary: one CRC round stays within sixteen bits. -/
theorem crc16Round_le (c b : Nat) : crc16Round c b ≤ 0xFFFF := by
  unfold crc16Round
  rw [show (8 : Nat) = 7 + 1 from rfl, Function.iterate_succ_apply']
  exact crcShiftStep_le _

/-- Auxiliary: the CRC accumulator stays within sixteen bits. -/
theorem crc16AugCcitt_le (l : List Nat) : crc16AugCcitt l ≤ 0xFFFF := by
  unfold crc16AugCcitt
  have : ∀ (l : List Nat) (c : Nat), c ≤ 0xFFFF → l.foldl crc16Round c ≤ 0xFFFF := by
    intro l
    induction l with
    | nil => exact fun c h => h
    | cons a t ih => exact fun c _ => ih _ (crc16Round_le c a)
  exact this _ _ (by norm_num)

/-- C2 witness: a 2048 byte preamble whose stored checksum field holds
the value 65536, which no sixteen bit CRC can equal, is rejected with
the invalid-preamble error. -/
theorem c2_preamble_witness :
    zlfReaderNew (List.replicate 2046 0 ++ [65536, 0]) =
      .error .InvalidStartPattern := by
  have hrep : (List.replicate 2046 (0 : Nat)).length = 2046 := List.length_replicate 2046 0
  have hlen : (2048 : Nat) ≤ (List.replicate 2046 0 ++ [65536, 0] : List Nat).length := by
    rw [List.length_append, hrep]
    norm_num
  refine (c2_preamble _ hlen).2 ?_
  have h46 : byteAt (List.replicate 2046 0 ++ [65536, 0]) 2046 = 65536 := by
    rw [byteAt_append_right _ _ _ (by rw [hrep]), hrep]
    norm_num [byteAt]
  have h47 : byteAt (List.replicate 2046 0 ++ [65536, 0]) 2047 = 0 := by
    rw [byteAt_append_right _ _ _ (by rw [hrep]; norm_num), hrep]
    norm_num [byteAt]
  rw [h46, h47]
  have := crc16AugCcitt_le ((List.replicate 2046 0 ++ [65536, 0] : List Nat).take 2046)
  omega

/-- C9: in the await-region state of a data frame, a byte that is one
of the known native region codes (0, 1, 2, 3, 5, 6, 7, 8, 9, 11, 32,
33) advances the parser to the await-rssi state, and any other byte
produces an Invalid outcome and resets the parser to the idle
state. -/
theorem c9_region_gate (p : ZParser) (h : p.state = .AwaitRegion) (b : Nat) :
    (b ∈ [0, 1, 2, 3, 5, 6, 7, 8, 9, 11, 32, 33] →
      (zparse p b).1.state = .AwaitRssi ∧ (zparse p b).2 = .IncompleteFrame) ∧
    (b ∉ [0, 1, 2, 3, 5, 6, 7, 8, 9, 11, 32, 33] →
      (zparse p b).1 = ZParser.new ∧ (zparse p b).2 = .InvalidFrame) := by
  constructor
  · intro hb
    fin_cases hb <;> simp [zparse, h, Region.tryFrom]
  · intro hb
    simp only [List.mem_cons, List.not_mem_nil, or_false, not_or] at hb
    obtain ⟨n0, n1, n2, n3, n5, n6, n7, n8, n9, n11, n32, n33⟩ := hb
    have hnone : Region.tryFrom b = none := by
      unfold Region.tryFrom
      split_ifs
      rfl
    simp [zparse, h, hnone]

/-- C9 witness: concrete region bytes in the await-region state. -/
theorem c9_region_gate_witness :
    (zparse { ZParser.new with state := .AwaitRegion } 0).1.state = .AwaitRssi ∧
    (zparse { ZParser.new with state := .AwaitRegion } 4).2 = .InvalidFrame :=
  ⟨((c9_region_gate _ rfl 0).1 (by decide)).1,
   ((c9_region_gate _ rfl 4).2 (by decide)).2⟩

/-- C10: every frame emitted by the PTI frame parser has timestamp 0,
and when the capture is a Tx one (is_rx bit of the appended-info
configuration byte clear) the rssi field is 0 as well; both are fixed
defaults rather than input data. -/
theorem c10_pti_defaults (data : List Nat) (fr : Frame)
    (h : parse_pti_frame data = some (.ValidFrame fr)) :
    fr.timestamp = 0 ∧
    (byteAt data (data.length - 1) &&& 0x40 = 0 → fr.rssi = 0) := by
  unfold parse_pti_frame at h
  simp only [] at h
  split_ifs at h with h1 h2 h3 h4 h5 h6 h7 h8 h9
  all_goals try (exfalso; simp at h; done)
  all_goals try split at h
  all_goals try (exfalso; simp at h; done)
  all_goals injection h with h
  all_goals injection h with h
  all_goals subst h
  all_goals refine ⟨rfl, fun hbit => ?_⟩
  all_goals first | rfl | (simp only [hbit] at *; simp_all)

/-- C10 witness: the Tx capture from the test suite, whose parsed frame
has timestamp 0 and rssi 0. -/
theorem c10_pti_defaults_witness :
    ({ region := .US, channel := 2, speed := 0, timestamp := 0,
       rssi := 0, payload := [1, 2, 3, 4] } : Frame).timestamp = 0 ∧
    (byteAt [0xFC, 1, 2, 3, 4, 0xFD, 0x02, 0x02, 0x06, 0x08]
        ([0xFC, 1, 2, 3, 4, 0xFD, 0x02, 0x02, 0x06, 0x08].length - 1) &&& 0x40 = 0 →
      ({ region := .US, channel := 2, speed := 0, timestamp := 0,
         rssi := 0, payload := [1, 2, 3, 4] } : Frame).rssi = 0) :=
  c10_pti_defaults [0xFC, 1, 2, 3, 4, 0xFD, 0x02, 0x02, 0x06, 0x08] _ (by rfl)

/-- Auxiliary: outcomesCons distributes over append. -/
theorem outcomesCons_append (r : ZParserResult) (u v : List ZParserResult) :
    outcomesCons r u ++ v = outcomesCons r (u ++ v) := by
  cases r <;> rfl

/-- Auxiliary: feeding a concatenation of two byte lists equals feeding
them in sequence, with the outcome lists concatenated. -/
theorem zfeed_append (a : List Nat) (p : ZParser) (b : List Nat) :
    zfeed p (a ++ b) =
      ((zfeed (zfeed p a).1 b).1, (zfeed p a).2 ++ (zfeed (zfeed p a).1 b).2) := by
  induction a generalizing p with
  | nil => simp [zfeed]
  | cons x t ih =>
    simp only [List.cons_append, List.append_eq, zfeed, ih, outcomesCons_append]

/-- Auxiliary: feeding chunks in sequence equals feeding their
concatenation in one call. -/
theorem zfeedChunks_flatten (cs : List (List Nat)) (p : ZParser) :
    zfeedChunks p cs = zfeed p cs.flatten := by
  induction cs generalizing p with
  | nil => simp [zfeedChunks, zfeed]
  | cons c cs ih =>
    simp only [List.flatten_cons, zfeedChunks, ih, zfeed_append]

/-- C5: feeding any chunking of a byte stream to a fresh parser yields
the same sequence of non-Incomplete outcomes as feeding the stream one
byte at a time. -/
theorem c5_chunk_invariance (chunks : List (List Nat)) :
    (zfeedChunks ZParser.new chunks).2 =
    (zfeedChunks ZParser.new (chunks.flatten.map (fun b => [b]))).2 := by
  have hjoin : ∀ s : List Nat, (s.map (fun b => [b])).flatten = s := by
    intro s
    induction s with
    | nil => rfl
    | cons x t ih => simp [List.flatten_cons, ih]
  rw [zfeedChunks_flatten, zfeedChunks_flatten, hjoin]

/-- C5 witness: a concrete chunking against byte-at-a-time feeding. -/
theorem c5_chunk_invariance_witness :
    (zfeedChunks ZParser.new [[0x23], [0xFF, 0x23, 0xFF]]).2 =
    (zfeedChunks ZParser.new
      (([[0x23], [0xFF, 0x23, 0xFF]] : List (List Nat)).flatten.map (fun b => [b]))).2 :=
  c5_chunk_invariance [[0x23], [0xFF, 0x23, 0xFF]]

/-- Auxiliary: indexing past a one byte head and a middle list. -/
theorem byteAt_after (x : Nat) (mid suffix : List Nat) (i : Nat)
    (h : mid.length + 1 ≤ i) :
    byteAt (x :: mid ++ suffix) i = byteAt suffix (i - (mid.length + 1)) := by
  have h2 : (x :: mid).length ≤ i := by simpa using h
  simpa using byteAt_append_right (x :: mid) suffix i h2

/-- Auxiliary: PTI region codes fit in five bits. -/
theorem toPti_and31 (r : Region) : r.toPti &&& 31 = r.toPti := by
  cases r <;> rfl

/-- Auxiliary: parsing the PTI payload synthesized by the re-emitter
(HW_RX_START, the payload, HW_RX_SUCCESS, the four byte trailer and
0x51) recovers the region, channel and payload and applies the RSSI
offset transformation dictated by the 0x51 configuration byte. -/
theorem parse_pti_emitted (payload : List Nat) (rssi ch : Nat) (region : Region)
    (hp : payload ≠ []) (h55 : byteAt payload 0 ≠ 0x55) (hch : ch < 64) :
    parse_pti_frame (0xF8 :: payload ++ [0xF9, rssi, region.toPti, ch, 0x06, 0x51]) =
      some (.ValidFrame
        { region := region, channel := ch,
          speed := get_speed ch region.toPti, timestamp := 0,
          rssi := rssiTransform rssi 0x51, payload := payload }) := by
  have hq : (0xF8 :: payload ++ [0xF9, rssi, region.toPti, ch, 0x06, 0x51]).length
      = payload.length + 7 := by
    simp
  have e1 : byteAt (0xF8 :: payload ++ [0xF9, rssi, region.toPti, ch, 0x06, 0x51])
      (payload.length + 7 - 1) = 0x51 := by
    rw [byteAt_after _ _ _ _ (by omega),
        show payload.length + 7 - 1 - (payload.length + 1) = 5 by omega]
    rfl
  have e2 : byteAt (0xF8 :: payload ++ [0xF9, rssi, region.toPti, ch, 0x06, 0x51])
      (payload.length + 7 - 2) = 0x06 := by
    rw [byteAt_after _ _ _ _ (by omega),
        show payload.length + 7 - 2 - (payload.length + 1) = 4 by omega]
    rfl
  have e3 : byteAt (0xF8 :: payload ++ [0xF9, rssi, region.toPti, ch, 0x06, 0x51])
      (payload.length + 7 - 3) = ch := by
    rw [byteAt_after _ _ _ _ (by omega),
        show payload.length + 7 - 3 - (payload.length + 1) = 3 by omega]
    rfl
  have e4 : byteAt (0xF8 :: payload ++ [0xF9, rssi, region.toPti, ch, 0x06, 0x51])
      (payload.length + 7 - 4) = region.toPti := by
    rw [byteAt_after _ _ _ _ (by omega),
        show payload.length + 7 - 4 - (payload.length + 1) = 2 by omega]
    rfl
  have e5 : byteAt (0xF8 :: payload ++ [0xF9, rssi, region.toPti, ch, 0x06, 0x51])
      (payload.length + 7 - 5) = rssi := by
    rw [byteAt_after _ _ _ _ (by omega),
        show payload.length + 7 - 5 - (payload.length + 1) = 1 by omega]
    rfl
  have hch63 : ch &&& 63 = ch := by
    rw [show (63 : Nat) = 2 ^ 6 - 1 by norm_num, Nat.and_pow_two_sub_one_eq_mod,
        Nat.mod_eq_of_lt hch]
  have hab : ((81 : Nat) &&& 56) >>> 3 + 3 = 5 := rfl
  have e6 : byteAt (0xF8 :: payload ++ [0xF9, rssi, region.toPti, ch, 0x06, 0x51])
      (payload.length + 7 - 1 - (((81 : Nat) &&& 56) >>> 3 + 3)) = 0xF9 := by
    rw [hab, byteAt_after _ _ _ _ (by omega),
        show payload.length + 7 - 1 - 5 - (payload.length + 1) = 0 by omega]
    rfl
  unfold parse_pti_frame
  rw [hq]
  have g1 : ¬(payload.length + 7 < 6) := by omega
  rw [if_neg g1]
  simp only []
  have g2 : ¬(byteAt (0xF8 :: payload ++ [0xF9, rssi, region.toPti, ch, 0x06, 0x51]) 0 ≠ 0xF8 ∧
      byteAt (0xF8 :: payload ++ [0xF9, rssi, region.toPti, ch, 0x06, 0x51]) 0 ≠ 0xFC) := by
    simp [byteAt]
  rw [if_neg g2, e1, e2]
  have g3 : ¬((6 : Nat) &&& 15 ≠ 6) := by decide
  rw [if_neg g3, e4, toPti_and31, toPti_then_back]
  dsimp only []
  have g4 : ¬(payload.length + 7 - 1 < ((81 : Nat) &&& 56) >>> 3 + 3) := by
    rw [hab]
    omega
  rw [if_neg g4]
  have g5 : ¬(byteAt (0xF8 :: payload ++ [0xF9, rssi, region.toPti, ch, 0x06, 0x51])
      (payload.length + 7 - 1 - (((81 : Nat) &&& 56) >>> 3 + 3)) ≠
        if ((81 : Nat) &&& 64) >>> 6 = 1 then 0xF9 else 0xFD) := by
    rw [e6]
    decide
  rw [if_neg g5]
  have hT : List.take (payload.length + 7 - 1 - (((81 : Nat) &&& 56) >>> 3 + 3) - 1)
      (List.drop 1 (0xF8 :: payload ++ [0xF9, rssi, region.toPti, ch, 0x06, 0x51])) = payload := by
    rw [hab, show payload.length + 7 - 1 - 5 - 1 = payload.length by omega,
        show List.drop 1 (0xF8 :: payload ++ [0xF9, rssi, region.toPti, ch, 0x06, 0x51]) =
          payload ++ [0xF9, rssi, region.toPti, ch, 0x06, 0x51] from rfl,
        List.take_left]
  rw [hT]
  have g6 : ¬(payload.length = 0 ∨ byteAt payload 0 = 0x55) := by
    rintro (hl | hr)
    · exact hp (List.length_eq_zero.mp hl)
    · exact h55 hr
  rw [if_neg g6, e3, hch63, e5]
  rfl

/-- C1 counterexample: the claim as stated fails on the rssi
component. Re-emitting a frame whose rssi byte is 0x9D and reparsing
yields rssi 0x80, because the re-emitter writes the configuration byte
0x51 (appended-info version 1) and the parser then subtracts 0x32 from
the signed rssi (saturating) and takes the absolute value. -/
theorem c1_counterexample :
    parse_dch_frame (to_pti_vector
      { region := .EU, channel := 0, speed := 0, timestamp := 0,
        rssi := 0x9D, payload := [0x01] }) =
      some (.ValidFrame
        { region := .EU, channel := 0, speed := 2, timestamp := 0,
          rssi := 0x80, payload := [0x01] }) ∧
    (0x80 : Nat) ≠ 0x9D :=
  ⟨rfl, by decide⟩

/-- C1 amended: for every frame with a non-empty payload not starting
0x55, a channel below 64 and a payload of at most 235 bytes (so the
u8 length byte of the envelope does not wrap), re-emitting through
Frame::to_pti_vector and reparsing with parse_dch_frame yields a frame
with the same region, channel and payload, whose rssi is the original
rssi transformed by the parser (subtract 0x32 from the signed byte,
saturating, then take the absolute value, per the emitted 0x51
configuration byte) and whose timestamp is 0. -/
theorem c1_roundtrip (m : Frame) (hp : m.payload ≠ [])
    (h55 : byteAt m.payload 0 ≠ 0x55) (hch : m.channel < 64)
    (hlen : m.payload.length ≤ 235) :
    parse_dch_frame (to_pti_vector m) =
      some (.ValidFrame
        { region := m.region, channel := m.channel,
          speed := get_speed m.channel m.region.toPti, timestamp := 0,
          rssi := rssiTransform m.rssi 0x51, payload := m.payload }) := by
  have hL : (to_pti_vector m).length = m.payload.length + 22 := by
    simp [to_pti_vector]
    try omega
  have b0 : byteAt (to_pti_vector m) 0 = 0x5B := rfl
  have b1 : byteAt (to_pti_vector m) 1 = (15 + m.payload.length + 7 - 2) % 256 := rfl
  have b2 : byteAt (to_pti_vector m) 2 = 0 := rfl
  have b3 : byteAt (to_pti_vector m) 3 = 2 := rfl
  have b4 : byteAt (to_pti_vector m) 4 = 0 := rfl
  have hmod : (15 + m.payload.length + 7 - 2) % 256 + 256 * 0 = m.payload.length + 20 := by
    omega
  have b5D : byteAt (to_pti_vector m) (m.payload.length + 20 + 1) = 0x5D := by
    unfold to_pti_vector
    rw [byteAt_append_right _ _ _ (by simp)]
    rw [show (([0x5B, (15 + m.payload.length + 7 - 2) % 256, 0x00, 0x02, 0x00,
          0x52, 0x6E, 0x7D, 0x50, 0x12, 0x00, 0x2A, 0x00, 0x87, 0xF8] ++ m.payload :
          List Nat)).length = m.payload.length + 15 from by simp; try omega]
    rw [show m.payload.length + 20 + 1 - (m.payload.length + 15) = 6 by omega]
    rfl
  unfold parse_dch_frame
  rw [hL, if_neg (show ¬(m.payload.length + 22 < 6) by omega)]
  rw [b0, if_neg (show ¬((0x5B : Nat) ≠ 0x5B) by simp)]
  simp only []
  rw [b1, b2, hmod]
  rw [if_neg (show ¬(m.payload.length + 22 < m.payload.length + 20 + 2) by omega)]
  rw [b5D, if_neg (show ¬((0x5D : Nat) ≠ 0x5D) by simp)]
  rw [b3, b4]
  rw [if_pos (show (2 : Nat) + 256 * 0 = 2 by norm_num)]
  rw [if_neg (show ¬(m.payload.length + 20 ≤ 13) by omega)]
  have hdrop : (to_pti_vector m).drop 14 =
      0xF8 :: m.payload ++ [0xF9, m.rssi, m.region.toPti, m.channel, 0x06, 0x51, 0x5D] := by
    unfold to_pti_vector
    rfl
  rw [hdrop]
  have htake : (0xF8 :: m.payload ++
        [0xF9, m.rssi, m.region.toPti, m.channel, 0x06, 0x51, 0x5D]).take
          (m.payload.length + 20 + 1 - 14) =
      0xF8 :: m.payload ++ [0xF9, m.rssi, m.region.toPti, m.channel, 0x06, 0x51] := by
    have hcons : (0xF8 :: m.payload : List Nat).length = m.payload.length + 1 := by simp
    rw [show m.payload.length + 20 + 1 - 14 = (0xF8 :: m.payload : List Nat).length + 6
        from by rw [hcons]; omega]
    rw [List.take_append 6]
    rfl
  rw [htake]
  exact parse_pti_emitted m.payload m.rssi m.channel m.region hp h55 hch

/-- C1 witness: a concrete frame whose round trip is evaluated. -/
theorem c1_roundtrip_witness :
    parse_dch_frame (to_pti_vector
      { region := .EU, channel := 1, speed := 0, timestamp := 5,
        rssi := 0x19, payload := [0xAA] }) =
      some (.ValidFrame
        { region := .EU, channel := 1,
          speed := get_speed 1 Region.EU.toPti, timestamp := 0,
          rssi := rssiTransform 0x19 0x51, payload := [0xAA] }) :=
  c1_roundtrip _ (by decide) (by decide) (by decide) (by decide)

end ZniffRs
